import Mathlib

/-!
Verification of the PRism backlog-triage engine against its specification.

The definitions below are shallow embeddings of the TypeScript sources:
JavaScript numbers are modelled as rationals (with an explicit marker for
non-finite values where `Number.isFinite` checks occur in the source),
fallible calls are modelled with `Except`, and the stateful orchestration
code of `TriageService` is modelled as pure functions over explicit
environments recording the outcomes of the external calls (storage queries,
embedding calls, judgment calls, hosting-API lookups).
-/

namespace Prism

/-! ## Backlog scoring (`src/utils/scoring.ts`) -/

inductive BacklogItemType where
  | issue
  | pr
deriving DecidableEq, Repr

inductive DedupeStatus where
  | duplicate
  | related
  | distinct
deriving DecidableEq, Repr

inductive ReviewComplexity where
  | low
  | medium
  | high
deriving DecidableEq, Repr

inductive VisionFit where
  | aligned
  | offTrack
  | neutral
deriving DecidableEq, Repr

/-- The `VisionAlignment` record (`src/types/index.ts`). -/
structure VisionAlignment where
  fit : VisionFit
  score : ℚ
  concerns : List String
  recommendation : String
deriving DecidableEq, Repr

/-- Optional per-severity finding counts (`ScoreBacklogItemInput.severityCounts`). -/
structure SeverityCounts where
  critical : Option ℚ
  major : Option ℚ
  minor : Option ℚ
  info : Option ℚ
deriving DecidableEq, Repr

/-- The input record of `scoreBacklogItem` (`src/utils/scoring.ts`). -/
structure ScoreBacklogItemInput where
  itemType : BacklogItemType
  dedupeStatus : DedupeStatus
  duplicateSimilarity : ℚ
  visionAlignment : Option VisionAlignment
  severityCounts : Option SeverityCounts
  reviewComplexity : Option ReviewComplexity
deriving DecidableEq, Repr

/-- The output record of `scoreBacklogItem`. -/
structure BacklogScore where
  score : ℤ
  reasons : List String
deriving DecidableEq, Repr

/-- The `clamp` helper of `src/utils/scoring.ts`:
`Math.max(min, Math.min(max, value))`. -/
def clamp (value lo hi : ℚ) : ℚ :=
  max lo (min hi value)

/-- JavaScript `Math.round`, which is `⌊x + 0.5⌋`. -/
def jsRound (x : ℚ) : ℤ :=
  Int.floor (x + 1 / 2)

/-- Shallow embedding of `scoreBacklogItem` (`src/utils/scoring.ts`, lines
35-89).  In the rational model every number satisfies `Number.isFinite`, so
the guard `Number.isFinite(input.duplicateSimilarity) ?
input.duplicateSimilarity : 0` reduces to the similarity itself. -/
def scoreBacklogItem (input : ScoreBacklogItemInput) : BacklogScore :=
  let similarity := clamp input.duplicateSimilarity 0 1
  let score : ℚ := 10
  let scoreReasons :=
    match input.dedupeStatus with
    | DedupeStatus.duplicate => (score + 55, ["High duplicate likelihood"])
    | DedupeStatus.related => (score + 25, ["Moderate duplicate signal"])
    | DedupeStatus.distinct => (score, ["No duplicate overlap detected"])
  let score := scoreReasons.1 + similarity * 30
  let reasons :=
    if similarity > 9 / 10 then scoreReasons.2 ++ ["Very high semantic similarity"]
    else if similarity > 3 / 4 then scoreReasons.2 ++ ["Strong semantic similarity"]
    else scoreReasons.2
  let afterPr :=
    match input.itemType with
    | BacklogItemType.pr =>
      let afterSeverity :=
        match input.severityCounts with
        | some counts =>
          let critical := clamp (counts.critical.getD 0) 0 10
          let major := clamp (counts.major.getD 0) 0 20
          let minor := clamp (counts.minor.getD 0) 0 30
          let score := score + critical * 3 + major * (3 / 2) + minor * (1 / 2)
          let reasons :=
            if critical > 0 then reasons ++ [toString critical ++ " critical finding(s)"]
            else reasons
          let reasons :=
            if major > 0 then reasons ++ [toString major ++ " major finding(s)"]
            else reasons
          (score, reasons)
        | none => (score, reasons)
      match input.reviewComplexity with
      | some ReviewComplexity.high =>
        (afterSeverity.1 + 5, afterSeverity.2 ++ ["High review complexity"])
      | some ReviewComplexity.medium =>
        (afterSeverity.1 + 2, afterSeverity.2 ++ ["Medium review complexity"])
      | _ => afterSeverity
    | BacklogItemType.issue => (score, reasons)
  let afterVision :=
    match input.visionAlignment with
    | some va =>
      match va.fit with
      | VisionFit.offTrack => (afterPr.1 + 10, afterPr.2 ++ ["Vision alignment mismatch"])
      | VisionFit.aligned => (afterPr.1 - 5, afterPr.2 ++ ["Aligns with vision goals"])
      | VisionFit.neutral => (afterPr.1, afterPr.2 ++ ["Vision alignment is neutral"])
    | none => afterPr
  { score := max 0 (min 100 (jsRound afterVision.1)), reasons := afterVision.2 }

/-- Modelled from the spec: the additive scoring formula of spec section 4.4,
transcribed from its pseudocode, to be compared with `scoreBacklogItem` above.
It differs syntactically from the source in one place: the severity bonus is
always computed from `severityCounts.critical or 0` (and likewise for major
and minor) instead of being guarded by the presence of the `severityCounts`
record. -/
def scoreBacklogItemSpec (input : ScoreBacklogItemInput) : BacklogScore :=
  let similarity := clamp input.duplicateSimilarity 0 1
  let score : ℚ := 10
  let scoreReasons :=
    match input.dedupeStatus with
    | DedupeStatus.duplicate => (score + 55, ["High duplicate likelihood"])
    | DedupeStatus.related => (score + 25, ["Moderate duplicate signal"])
    | DedupeStatus.distinct => (score, ["No duplicate overlap detected"])
  let score := scoreReasons.1 + similarity * 30
  let reasons :=
    if similarity > 9 / 10 then scoreReasons.2 ++ ["Very high semantic similarity"]
    else if similarity > 3 / 4 then scoreReasons.2 ++ ["Strong semantic similarity"]
    else scoreReasons.2
  let afterPr :=
    match input.itemType with
    | BacklogItemType.pr =>
      let critical := clamp ((input.severityCounts.bind SeverityCounts.critical).getD 0) 0 10
      let major := clamp ((input.severityCounts.bind SeverityCounts.major).getD 0) 0 20
      let minor := clamp ((input.severityCounts.bind SeverityCounts.minor).getD 0) 0 30
      let score := score + critical * 3 + major * (3 / 2) + minor * (1 / 2)
      let reasons :=
        if critical > 0 then reasons ++ [toString critical ++ " critical finding(s)"]
        else reasons
      let reasons :=
        if major > 0 then reasons ++ [toString major ++ " major finding(s)"]
        else reasons
      match input.reviewComplexity with
      | some ReviewComplexity.high => (score + 5, reasons ++ ["High review complexity"])
      | some ReviewComplexity.medium => (score + 2, reasons ++ ["Medium review complexity"])
      | _ => (score, reasons)
    | BacklogItemType.issue => (score, reasons)
  let afterVision :=
    match input.visionAlignment with
    | some va =>
      match va.fit with
      | VisionFit.offTrack => (afterPr.1 + 10, afterPr.2 ++ ["Vision alignment mismatch"])
      | VisionFit.aligned => (afterPr.1 - 5, afterPr.2 ++ ["Aligns with vision goals"])
      | VisionFit.neutral => (afterPr.1, afterPr.2 ++ ["Vision alignment is neutral"])
    | none => afterPr
  { score := max 0 (min 100 (jsRound afterVision.1)), reasons := afterVision.2 }

/-- The first worked example of spec section 8 (duplicate PR, similarity 0.96,
severity counts 1/2/3/4, high complexity, off-track vision). -/
def scoreExampleDupPr : ScoreBacklogItemInput :=
  { itemType := BacklogItemType.pr
    dedupeStatus := DedupeStatus.duplicate
    duplicateSimilarity := 24 / 25
    visionAlignment := some
      { fit := VisionFit.offTrack
        score := 1 / 5
        concerns := ["Scope creep"]
        recommendation := "Re-evaluate against roadmap" }
    severityCounts := some
      { critical := some 1, major := some 2, minor := some 3, info := some 4 }
    reviewComplexity := some ReviewComplexity.high }

/-- The second worked example of spec section 8 (distinct issue, similarity 1,
aligned vision). -/
def scoreExampleDistinctIssue : ScoreBacklogItemInput :=
  { itemType := BacklogItemType.issue
    dedupeStatus := DedupeStatus.distinct
    duplicateSimilarity := 1
    visionAlignment := some
      { fit := VisionFit.aligned
        score := 19 / 20
        concerns := []
        recommendation := "good fit" }
    severityCounts := none
    reviewComplexity := none }

/-! ## Cosine similarity (`src/services/llm.ts`, `LLMService.cosineSimilarity`) -/

/-- A JavaScript number as seen by `Number.isFinite`: either a finite value,
modelled exactly as a rational, or a non-finite value (`NaN`, `±Infinity`). -/
inductive JsNum where
  | fin (q : ℚ)
  | nonfinite
deriving DecidableEq, Repr

/-- The two exceptions thrown by `cosineSimilarity`. -/
inductive CosimError where
  | lengthMismatch
  | nonFiniteValues
deriving DecidableEq, Repr

/-- The accumulation loop of `cosineSimilarity`: for each index it checks
`Number.isFinite` on both components (throwing otherwise) and accumulates the
dot product and the two squared norms. -/
def cosLoop : List JsNum → List JsNum → ℚ → ℚ → ℚ → Except CosimError (ℚ × ℚ × ℚ)
  | [], _, d, na, nb => Except.ok (d, na, nb)
  | _ :: _, [], d, na, nb => Except.ok (d, na, nb)
  | JsNum.fin x :: xs, JsNum.fin y :: ys, d, na, nb =>
      cosLoop xs ys (d + x * y) (na + x * x) (nb + y * y)
  | _ :: _, _ :: _, _, _, _ => Except.error CosimError.nonFiniteValues

/-- Shallow embedding of `LLMService.cosineSimilarity` (`src/services/llm.ts`,
lines 303-327).  The source tests `Math.sqrt(normA) * Math.sqrt(normB) === 0`;
over the reals, for the nonnegative sums of squares `normA` and `normB`, that
denominator vanishes exactly when `normA * normB = 0`, which is the decidable
form used for the branch here. -/
noncomputable def cosineSimilarity (a b : List JsNum) : Except CosimError ℝ :=
  if a.length ≠ b.length then Except.error CosimError.lengthMismatch
  else
    match cosLoop a b 0 0 0 with
    | Except.error e => Except.error e
    | Except.ok (d, na, nb) =>
      if na * nb = 0 then Except.ok 0
      else Except.ok (((d : ℚ) : ℝ) / (Real.sqrt ((na : ℚ) : ℝ) * Real.sqrt ((nb : ℚ) : ℝ)))

/-- A vector of finite components, as passed to `cosineSimilarity`. -/
def finVec (l : List ℚ) : List JsNum := l.map JsNum.fin

/-- Dot product of two rational vectors (truncating at the shorter length),
used to describe the accumulators of `cosLoop`. -/
def dotQ (a b : List ℚ) : ℚ := (List.zipWith (fun x y => x * y) a b).sum

/-! ## Triage service models (`src/services/triage.ts`) -/

/-- The `SimilarItem` record (`src/types/index.ts`). -/
structure SimilarItem where
  number : ℕ
  title : String
  url : String
  similarity : ℚ
  type : BacklogItemType
deriving DecidableEq, Repr

/-- An element of `DuplicateResult.similarItems` (`src/types/index.ts`):
a candidate the judgment call flagged, carrying a judge-supplied similarity. -/
structure VerdictItem where
  number : ℕ
  title : String
  url : String
  similarity : ℚ
deriving DecidableEq, Repr

/-- The `DuplicateResult` verdict produced by `LLMService.detectDuplicate`. -/
structure DuplicateResult where
  isDuplicate : Bool
  similarItems : List VerdictItem
  reasoning : String
deriving DecidableEq, Repr

/-- The `LabelSuggestion` record (`src/types/index.ts`). -/
structure LabelSuggestion where
  labels : List String
  reasoning : String
deriving DecidableEq, Repr

/-- An issue as fetched by `GitHubService.getIssues`. -/
structure IssueRecord where
  number : ℕ
  title : String
  body : String
  htmlUrl : String
deriving DecidableEq, Repr

/-- A pull request as fetched by `GitHubService.getPullRequests` or
`GitHubService.getPullRequest` (the `state` field records open/closed). -/
structure PrRecord where
  number : ℕ
  title : String
  body : String
  htmlUrl : String
  state : String
  headSha : String
deriving DecidableEq, Repr

/-- A candidate record as passed by `detectIssueDuplicate` or
`detectPrDuplicate` to `LLMService.detectDuplicate`. -/
structure JudgeCandidate where
  number : ℕ
  title : String
  body : String
  url : String
  similarity : ℚ
deriving DecidableEq, Repr

/-- JavaScript `value.toFixed(1)` for the nonnegative percentages rendered by
`formatDuplicateComment`: round at one decimal and print with exactly one
digit after the point. -/
def toFixed1 (q : ℚ) : String :=
  let scaled := jsRound (q * 10)
  toString (scaled / 10) ++ "." ++ toString (scaled % 10)

/-- The numeric percentage value rendered for a judge-supplied similarity in
`formatDuplicateComment` (`src/services/triage.ts`, line 546): the raw
`item.similarity * 100`, rounded at one decimal, with no normalization. -/
def renderedPercent (similarity : ℚ) : ℚ :=
  (jsRound (similarity * 100 * 10) : ℚ) / 10

/-- One similar-item line of `formatDuplicateComment`
(`src/services/triage.ts`, lines 545-548). -/
def similarItemLine (item : VerdictItem) : String :=
  "- [#" ++ toString item.number ++ "](" ++ item.url ++ ") - " ++ item.title ++
    " (" ++ toFixed1 (item.similarity * 100) ++ "% similar)"

/-- `formatDuplicateComment` (`src/services/triage.ts`, lines 539-555),
rendered without the mojibake emoji prefix of the source. -/
def formatDuplicateComment (result : DuplicateResult) (type : BacklogItemType) : String :=
  let typeName := match type with
    | BacklogItemType.issue => "issue"
    | BacklogItemType.pr => "pr"
  let header := "**Potential Duplicate Detected**\n\n" ++
    "This " ++ typeName ++ " appears to be similar to:\n\n"
  let body := String.join (result.similarItems.map (fun item => similarItemLine item ++ "\n"))
  header ++ body ++ "\n**Analysis:**\n" ++ result.reasoning ++ "\n\n---\n" ++
    "*This analysis was generated by PRism AI triage.*"

/-- Modelled from the spec: the similarity normalization of spec section 4.3
step 7 (if the judge-supplied value exceeds 1 divide it by 100, then clamp to
[0,1]).  The source `src/services/triage.ts` contains no such function; this
definition only serves to state what the spec requires. -/
def normalizeSimilaritySpec (v : ℚ) : ℚ :=
  clamp (if v > 1 then v / 100 else v) 0 1

/-- The comment-posting decision of `detectIssueDuplicate`
(`src/services/triage.ts`, lines 259-266): a comment is posted on the source
issue alone, exactly when `result.isDuplicate && result.similarItems.length >
0`; no threshold is consulted and no other comment tier exists. -/
def detectIssueDuplicateComments (issueNumber : ℕ) (result : DuplicateResult) :
    List (ℕ × String) :=
  if result.isDuplicate && !result.similarItems.isEmpty then
    [(issueNumber, formatDuplicateComment result BacklogItemType.issue)]
  else []

/-- The label write performed by `suggestIssueLabels`
(`src/services/triage.ts`, lines 387-410): the suggested list is applied
as-is whenever it is nonempty; `repoLabels` is only interpolated into the
model prompt and never used to filter the write. -/
def suggestIssueLabelsWrites (issueNumber : ℕ) (_repoLabels : List String)
    (suggestion : LabelSuggestion) : List (ℕ × List String) :=
  if 0 < suggestion.labels.length then [(issueNumber, suggestion.labels)] else []

/-- `GitHubService.addLabels` (`src/services/github.ts`, lines 112-126):
whether an API write is issued for a given label list (the method returns
early on an empty list). -/
def addLabelsPerformsWrite (labels : List String) : Bool :=
  !labels.isEmpty

/-- `MemoryStorage.findSimilar` (`src/services/llm.ts` storage section, lines
354-362): the volatile backend never returns neighbors. -/
def memoryFindSimilar (_embedding : List ℚ) (_threshold : ℚ) (_limit : ℕ) :
    List SimilarItem := []

/-- The linear-scan fallback loop of `findSimilarIssues`
(`src/services/triage.ts`, lines 460-483): iterate the fetched sibling
issues in order, skip the item's own number, keep the siblings whose cosine
similarity reaches the threshold, and store every computed embedding under
`issue-<number>`.  The function is parameterized by `sim`, the similarity
that `LLMService.cosineSimilarity` yields for each sibling's embedding
against the query embedding.  It returns the collected hits in iteration
order together with the storage keys written. -/
def issueScanLoop (threshold : ℚ) (excludeNumber : ℕ) (sim : IssueRecord → ℚ) :
    List IssueRecord → List SimilarItem × List String
  | [] => ([], [])
  | issue :: rest =>
    let tail := issueScanLoop threshold excludeNumber sim rest
    if issue.number = excludeNumber then tail
    else
      let s := sim issue
      let hits :=
        if threshold ≤ s then
          [{ number := issue.number, title := issue.title, url := issue.htmlUrl,
             similarity := s, type := BacklogItemType.issue : SimilarItem }]
        else []
      (hits ++ tail.1, ("issue-" ++ toString issue.number) :: tail.2)

/-- The descending-similarity comparison of the JS sort callback
`(a, b) => b.similarity - a.similarity`. -/
def bySimilarityDesc (a b : SimilarItem) : Bool :=
  b.similarity ≤ a.similarity

/-- `findSimilarIssues` (`src/services/triage.ts`, lines 443-486),
parameterized over the storage query result, the fetched sibling issues and
the per-sibling similarity.  Returns the similar items together with the
storage keys written during the fallback scan. -/
def findSimilarIssues (similarFromDb : List SimilarItem) (issues : List IssueRecord)
    (sim : IssueRecord → ℚ) (threshold : ℚ) (excludeNumber : ℕ) :
    List SimilarItem × List String :=
  if 0 < similarFromDb.length then
    (similarFromDb.filter
      (fun item => decide (item.number ≠ excludeNumber) &&
        decide (item.type = BacklogItemType.issue)), [])
  else
    let scan := issueScanLoop threshold excludeNumber sim issues
    ((scan.1.mergeSort bySimilarityDesc).take 10, scan.2)

/-- The linear-scan fallback loop of `findSimilarPrs`
(`src/services/triage.ts`, lines 508-531), storing under `pr-<headSha>`. -/
def prScanLoop (threshold : ℚ) (excludeNumber : ℕ) (sim : PrRecord → ℚ) :
    List PrRecord → List SimilarItem × List String
  | [] => ([], [])
  | pr :: rest =>
    let tail := prScanLoop threshold excludeNumber sim rest
    if pr.number = excludeNumber then tail
    else
      let s := sim pr
      let hits :=
        if threshold ≤ s then
          [{ number := pr.number, title := pr.title, url := pr.htmlUrl,
             similarity := s, type := BacklogItemType.pr : SimilarItem }]
        else []
      (hits ++ tail.1, ("pr-" ++ pr.headSha) :: tail.2)

/-- `findSimilarPrs` (`src/services/triage.ts`, lines 491-534). -/
def findSimilarPrs (similarFromDb : List SimilarItem) (prs : List PrRecord)
    (sim : PrRecord → ℚ) (threshold : ℚ) (excludeNumber : ℕ) :
    List SimilarItem × List String :=
  if 0 < similarFromDb.length then
    (similarFromDb.filter
      (fun item => decide (item.number ≠ excludeNumber) &&
        decide (item.type = BacklogItemType.pr)), [])
  else
    let scan := prScanLoop threshold excludeNumber sim prs
    ((scan.1.mergeSort bySimilarityDesc).take 10, scan.2)

/-- The candidate list `detectPrDuplicate` passes to the judgment call
(`src/services/triage.ts`, lines 291-318): the top five similar items, each
enriched with the full PR body fetched via `GitHubService.getPullRequest`.
No check of the candidate's open/closed/merged state appears anywhere on
this path. -/
def detectPrDuplicateCandidates (similarFromDb : List SimilarItem)
    (prs : List PrRecord) (sim : PrRecord → ℚ) (threshold : ℚ)
    (getPullRequest : ℕ → PrRecord) (prNumber : ℕ) : List JudgeCandidate :=
  let similarItems := (findSimilarPrs similarFromDb prs sim threshold prNumber).1
  (similarItems.take 5).map (fun item =>
    { number := item.number, title := item.title,
      body := (getPullRequest item.number).body, url := item.url,
      similarity := item.similarity })

/-- The recorded outcomes of the external calls made during one issue's
duplicate detection. -/
structure TriageEnv where
  embedResult : Except String (List ℚ)
  judgeResult : Except String DuplicateResult
  similarFromDb : List SimilarItem
  issues : List IssueRecord
  siblingSim : IssueRecord → ℚ

/-- The observable outcome of one item's duplicate detection: the comments
posted, the storage keys written, and whether the catch arm logged an
error. -/
structure DetectOutcome where
  comments : List (ℕ × String)
  storedKeys : List String
  errorLogged : Bool

/-- `detectIssueDuplicate` (`src/services/triage.ts`, lines 214-270): the
whole body runs inside `try`; each `await` of a fallible external call is
modelled by matching on its recorded outcome, and the `catch` arm only logs
the error. -/
def detectIssueDuplicateRun (threshold : ℚ) (env : TriageEnv)
    (issue : IssueRecord) : DetectOutcome :=
  match env.embedResult with
  | Except.error _ => { comments := [], storedKeys := [], errorLogged := true }
  | Except.ok _ =>
    let found := findSimilarIssues env.similarFromDb env.issues env.siblingSim
      threshold issue.number
    let stored := ("issue-" ++ toString issue.number) :: found.2
    if found.1.isEmpty then
      { comments := [], storedKeys := stored, errorLogged := false }
    else
      match env.judgeResult with
      | Except.error _ => { comments := [], storedKeys := stored, errorLogged := true }
      | Except.ok result =>
        { comments := detectIssueDuplicateComments issue.number result
          storedKeys := stored
          errorLogged := false }

/-- A batch of sibling items, each processed through its own
`detectIssueDuplicate` boundary. -/
def processDetections (threshold : ℚ) (batch : List (TriageEnv × IssueRecord)) :
    List DetectOutcome :=
  batch.map (fun p => detectIssueDuplicateRun threshold p.1 p.2)

/-- Judge-flagged candidate with a similarity of 0.2. -/
def lowSimItem : VerdictItem :=
  { number := 100
    title := "Only loosely related issue"
    url := "https://github.com/example-org/example-repo/issues/100"
    similarity := 1 / 5 }

/-- Concrete judge verdict with a similarity of 0.2: flagged as duplicate by
the judge although far below every threshold. -/
def lowSimVerdict : DuplicateResult :=
  { isDuplicate := true
    similarItems := [lowSimItem]
    reasoning := "The overlap is weak despite a duplicate flag." }

/-- Concrete judge verdict carrying a percent-scale similarity of 86.6. -/
def percentScaleItem : VerdictItem :=
  { number := 100
    title := "OAuth callback timeout"
    url := "https://github.com/example-org/example-repo/issues/100"
    similarity := 433 / 5 }

/-- Storage hit describing a closed candidate PR above threshold. -/
def closedPrHit : SimilarItem :=
  { number := 6
    title := "Closed smoke-test PR"
    url := "https://github.com/example-org/example-repo/pull/6"
    similarity := 91 / 100
    type := BacklogItemType.pr }

/-- Storage result containing only the closed candidate PR. -/
def closedPrStore : List SimilarItem :=
  [closedPrHit]

/-- Hosting-API lookup returning a closed PR for number 6. -/
def closedPrLookup : ℕ → PrRecord := fun n =>
  if n = 6 then
    { number := 6
      title := "Closed smoke-test PR"
      body := "Closed test PR body"
      htmlUrl := "https://github.com/example-org/example-repo/pull/6"
      state := "closed"
      headSha := "abc123" }
  else
    { number := n, title := "", body := "", htmlUrl := "", state := "open", headSha := "" }

/-- Environment whose embedding call fails. -/
def envEmbedFail : TriageEnv :=
  { embedResult := Except.error "embedding call failed"
    judgeResult := Except.ok { isDuplicate := false, similarItems := [], reasoning := "ok" }
    similarFromDb := []
    issues := []
    siblingSim := fun _ => 0 }

/-- Storage hit used by `envJudgeFail`. -/
def loginIssueHit : SimilarItem :=
  { number := 100
    title := "Existing login submit issue"
    url := "https://github.com/example-org/example-repo/issues/100"
    similarity := 9 / 10
    type := BacklogItemType.issue }

/-- Environment whose judgment call fails after a storage hit. -/
def envJudgeFail : TriageEnv :=
  { embedResult := Except.ok [1]
    judgeResult := Except.error "judgment call failed"
    similarFromDb := [loginIssueHit]
    issues := []
    siblingSim := fun _ => 0 }

/-- A sample source issue. -/
def sampleIssue : IssueRecord :=
  { number := 101
    title := "Login button not working"
    body := "Clicking submit does nothing."
    htmlUrl := "https://github.com/example-org/example-repo/issues/101" }

/-- Declarative description of what the fallback scan of `findSimilarIssues`
collects: the fetched siblings other than the item itself whose similarity
reaches the threshold, in fetch order. -/
def fallbackSurvivors (issues : List IssueRecord) (sim : IssueRecord → ℚ)
    (threshold : ℚ) (excludeNumber : ℕ) : List SimilarItem :=
  (issues.filter
      (fun i => decide (i.number ≠ excludeNumber) && decide (threshold ≤ sim i))).map
    (fun i =>
      ⟨i.number, i.title, i.htmlUrl, sim i, BacklogItemType.issue⟩)

/-! ## Auxiliary lemmas -/

theorem dotQ_cons (x y : ℚ) (xs ys : List ℚ) :
    dotQ (x :: xs) (y :: ys) = x * y + dotQ xs ys := rfl

theorem dotQ_self_nonneg (a : List ℚ) : 0 ≤ dotQ a a := by
  induction a with
  | nil => simp [dotQ]
  | cons x xs ih =>
    rw [dotQ_cons]
    have := mul_self_nonneg x
    linarith

theorem dotQ_self_eq_zero (a : List ℚ) : dotQ a a = 0 ↔ ∀ x ∈ a, x = 0 := by
  induction a with
  | nil => simp [dotQ]
  | cons x xs ih =>
    rw [dotQ_cons]
    constructor
    · intro h
      have hx : 0 ≤ x * x := mul_self_nonneg x
      have hxs := dotQ_self_nonneg xs
      have h2 : dotQ xs xs = 0 := by linarith
      have hx0 : x = 0 := by nlinarith [sq_nonneg x]
      intro y hy
      rcases List.mem_cons.mp hy with rfl | hy
      · exact hx0
      · exact (ih.mp h2) y hy
    · intro h
      have hx0 : x = 0 := h x (List.mem_cons_self _ _)
      have h2 : dotQ xs xs = 0 := ih.mpr fun y hy => h y (List.mem_cons_of_mem _ hy)
      rw [hx0, h2]; ring

theorem cauchy_schwarz_step (x y d A B : ℚ) (hA : 0 ≤ A) (hB : 0 ≤ B)
    (hd : d ^ 2 ≤ A * B) : (x * y + d) ^ 2 ≤ (x * x + A) * (y * y + B) := by
  rcases eq_or_lt_of_le hB with hB0 | hBpos
  · have hd0 : d = 0 := by nlinarith [sq_nonneg d]
    subst hd0
    nlinarith [sq_nonneg x, sq_nonneg y, mul_nonneg hA (sq_nonneg y)]
  · nlinarith [sq_nonneg (x * B - y * d), mul_nonneg (add_nonneg (sq_nonneg y) hB)
      (sub_nonneg.mpr hd), hBpos]

theorem dotQ_sq_le (a b : List ℚ) : dotQ a b ^ 2 ≤ dotQ a a * dotQ b b := by
  induction a generalizing b with
  | nil => simp [dotQ]
  | cons x xs ih =>
    cases b with
    | nil =>
      simp only [dotQ, List.zipWith]
      simp only [List.sum_nil, ne_eq, OfNat.ofNat_ne_zero, not_false_eq_true, zero_pow]
      exact mul_nonneg (dotQ_self_nonneg (x :: xs)) (dotQ_self_nonneg [])
    | cons y ys =>
      rw [dotQ_cons, dotQ_cons, dotQ_cons]
      exact cauchy_schwarz_step x y (dotQ xs ys) (dotQ xs xs) (dotQ ys ys)
        (dotQ_self_nonneg xs) (dotQ_self_nonneg ys) (ih ys)

theorem dotQ_map_neg_right (a : List ℚ) :
    dotQ a (a.map (fun q => -q)) = -(dotQ a a) := by
  induction a with
  | nil => simp [dotQ]
  | cons x xs ih => simp only [List.map_cons, dotQ_cons, ih]; ring

theorem dotQ_map_neg_both (a : List ℚ) :
    dotQ (a.map (fun q => -q)) (a.map (fun q => -q)) = dotQ a a := by
  induction a with
  | nil => simp [dotQ]
  | cons x xs ih => simp only [List.map_cons, dotQ_cons, ih]; ring

theorem cosLoop_finVec (a : List ℚ) : ∀ (b : List ℚ) (d na nb : ℚ),
    a.length = b.length →
    cosLoop (finVec a) (finVec b) d na nb =
      Except.ok (d + dotQ a b, na + dotQ a a, nb + dotQ b b) := by
  induction a with
  | nil =>
    intro b d na nb h
    cases b with
    | nil => simp [cosLoop, finVec, dotQ]
    | cons y ys => simp at h
  | cons x xs ih =>
    intro b d na nb h
    cases b with
    | nil => simp at h
    | cons y ys =>
      have step : cosLoop (finVec (x :: xs)) (finVec (y :: ys)) d na nb
          = cosLoop (finVec xs) (finVec ys) (d + x * y) (na + x * x) (nb + y * y) := rfl
      rw [step, ih ys (d + x * y) (na + x * x) (nb + y * y) (by simpa using h),
        dotQ_cons, dotQ_cons, dotQ_cons]
      simp only [Except.ok.injEq, Prod.mk.injEq]
      refine ⟨by ring, by ring, by ring⟩

theorem cosLoop_nonfinite (a : List JsNum) : ∀ (b : List JsNum) (d na nb : ℚ),
    a.length = b.length →
    (JsNum.nonfinite ∈ a ∨ JsNum.nonfinite ∈ b) →
    cosLoop a b d na nb = Except.error CosimError.nonFiniteValues := by
  induction a with
  | nil =>
    intro b d na nb h hmem
    cases b with
    | nil => simp at hmem
    | cons y ys => simp at h
  | cons x xs ih =>
    intro b d na nb h hmem
    cases b with
    | nil => simp at h
    | cons y ys =>
      cases x with
      | nonfinite => rfl
      | fin q =>
        cases y with
        | nonfinite => rfl
        | fin r =>
          simp only [cosLoop]
          apply ih ys _ _ _ (by simpa using h)
          simpa using hmem

theorem cosineSimilarity_finVec (a b : List ℚ) (h : a.length = b.length) :
    cosineSimilarity (finVec a) (finVec b) =
      if dotQ a a * dotQ b b = 0 then Except.ok 0
      else Except.ok (((dotQ a b : ℚ) : ℝ) /
        (Real.sqrt ((dotQ a a : ℚ) : ℝ) * Real.sqrt ((dotQ b b : ℚ) : ℝ))) := by
  rw [cosineSimilarity, if_neg (by simp [finVec, h]), cosLoop_finVec a b 0 0 0 h]
  simp

theorem issueScanLoop_eq (threshold : ℚ) (excludeNumber : ℕ)
    (sim : IssueRecord → ℚ) (issues : List IssueRecord) :
    issueScanLoop threshold excludeNumber sim issues =
      (fallbackSurvivors issues sim threshold excludeNumber,
       (issues.filter (fun i => decide (i.number ≠ excludeNumber))).map
         (fun i => "issue-" ++ toString i.number)) := by
  induction issues with
  | nil => rfl
  | cons i rest ih =>
    simp only [issueScanLoop, ih, fallbackSurvivors]
    by_cases h1 : i.number = excludeNumber
    · simp [fallbackSurvivors, h1]
    · by_cases h2 : threshold ≤ sim i
      · simp [fallbackSurvivors, h1, h2]
      · simp [fallbackSurvivors, h1, h2]

theorem bySimilarityDesc_trans (a b c : SimilarItem) :
    bySimilarityDesc a b → bySimilarityDesc b c → bySimilarityDesc a c := by
  simp only [bySimilarityDesc, decide_eq_true_eq]
  intro h1 h2
  exact le_trans h2 h1

theorem bySimilarityDesc_total (a b : SimilarItem) :
    bySimilarityDesc a b || bySimilarityDesc b a := by
  simp only [bySimilarityDesc, Bool.or_eq_true, decide_eq_true_eq]
  exact le_total b.similarity a.similarity

/-! ## Claim theorems -/

/-- Claim C3: `scoreBacklogItem` computes exactly the additive formula of spec
section 4.4, and on the two worked examples of spec section 8 it returns
score 100 with the six listed reasons, and score 35 respectively. -/
theorem scoreBacklogItem_formula_and_examples :
    (∀ input, scoreBacklogItem input = scoreBacklogItemSpec input) ∧
    scoreBacklogItem scoreExampleDupPr =
      { score := 100
        reasons := ["High duplicate likelihood", "Very high semantic similarity",
          "1 critical finding(s)", "2 major finding(s)", "High review complexity",
          "Vision alignment mismatch"] } ∧
    (scoreBacklogItem scoreExampleDistinctIssue).score = 35 := by
  refine ⟨?_, ?_, ?_⟩
  · intro input
    obtain ⟨it, ds, simv, va, sc, rc⟩ := input
    cases it
    · rfl
    · cases sc
      · simp only [scoreBacklogItem, scoreBacklogItemSpec, Option.bind, clamp, Option.getD]
        norm_num
      · rfl
  · norm_num [scoreBacklogItem, scoreExampleDupPr, clamp, jsRound, min_def, max_def,
      Int.floor_eq_iff]
    exact ⟨rfl, rfl⟩
  · norm_num [scoreBacklogItem, scoreExampleDistinctIssue, clamp, jsRound, min_def, max_def,
      Int.floor_eq_iff]

/-- Claim C10: when the item type is `issue`, the result of `scoreBacklogItem`
does not depend on `severityCounts` or `reviewComplexity`: those branches are
guarded by the PR check. -/
theorem scoreBacklogItem_issue_ignores_pr_inputs (ds : DedupeStatus) (simv : ℚ)
    (va : Option VisionAlignment) (sc₁ sc₂ : Option SeverityCounts)
    (rc₁ rc₂ : Option ReviewComplexity) :
    scoreBacklogItem
      { itemType := BacklogItemType.issue, dedupeStatus := ds,
        duplicateSimilarity := simv, visionAlignment := va,
        severityCounts := sc₁, reviewComplexity := rc₁ } =
    scoreBacklogItem
      { itemType := BacklogItemType.issue, dedupeStatus := ds,
        duplicateSimilarity := simv, visionAlignment := va,
        severityCounts := sc₂, reviewComplexity := rc₂ } := rfl

/-- Claim C6: `cosineSimilarity` fails with a length-mismatch error on vectors
of different lengths, fails with a domain error when any component is
non-finite, and returns exactly 0 (not an error) when either vector has zero
magnitude. -/
theorem cosineSimilarity_error_handling :
    (∀ a b : List JsNum, a.length ≠ b.length →
      cosineSimilarity a b = Except.error CosimError.lengthMismatch) ∧
    (∀ a b : List JsNum, a.length = b.length →
      JsNum.nonfinite ∈ a ∨ JsNum.nonfinite ∈ b →
      cosineSimilarity a b = Except.error CosimError.nonFiniteValues) ∧
    (∀ a b : List ℚ, a.length = b.length →
      ((∀ q ∈ a, q = 0) ∨ (∀ q ∈ b, q = 0)) →
      cosineSimilarity (finVec a) (finVec b) = Except.ok 0) := by
  refine ⟨?_, ?_, ?_⟩
  · intro a b h
    simp [cosineSimilarity, h]
  · intro a b h hmem
    rw [cosineSimilarity, if_neg (by simp [h]), cosLoop_nonfinite a b 0 0 0 h hmem]
  · intro a b h hz
    rw [cosineSimilarity_finVec a b h]
    have hzz : dotQ a a * dotQ b b = 0 := by
      rcases hz with hza | hzb
      · rw [(dotQ_self_eq_zero a).mpr hza]; ring
      · rw [(dotQ_self_eq_zero b).mpr hzb]; ring
    simp [hzz]

/-- Witness for claim C6: a concrete length mismatch, a concrete non-finite
component, and a concrete zero-magnitude vector. -/
theorem cosineSimilarity_error_handling_witness :
    cosineSimilarity [JsNum.fin 1, JsNum.fin 0, JsNum.fin 0] [JsNum.fin 1, JsNum.fin 0] =
      Except.error CosimError.lengthMismatch ∧
    cosineSimilarity [JsNum.nonfinite] [JsNum.fin 2] =
      Except.error CosimError.nonFiniteValues ∧
    cosineSimilarity (finVec [0, 0]) (finVec [3, 4]) = Except.ok 0 :=
  ⟨cosineSimilarity_error_handling.1 _ _ (by decide),
   cosineSimilarity_error_handling.2.1 _ _ (by decide) (by decide),
   cosineSimilarity_error_handling.2.2 [0, 0] [3, 4] (by decide) (Or.inl (by decide))⟩

/-- Claim C7: for equal-length finite vectors the cosine similarity lies in
[-1, 1]; it is exactly 1 on a non-zero vector against itself, and exactly -1
against its negation. -/
theorem cosineSimilarity_range :
    (∀ a b : List ℚ, a.length = b.length →
      ∃ r : ℝ, cosineSimilarity (finVec a) (finVec b) = Except.ok r ∧ -1 ≤ r ∧ r ≤ 1) ∧
    (∀ v : List ℚ, (∃ q ∈ v, q ≠ 0) →
      cosineSimilarity (finVec v) (finVec v) = Except.ok 1) ∧
    (∀ v : List ℚ, (∃ q ∈ v, q ≠ 0) →
      cosineSimilarity (finVec v) (finVec (v.map (fun q => -q))) = Except.ok (-1)) := by
  refine ⟨?_, ?_, ?_⟩
  · intro a b h
    rw [cosineSimilarity_finVec a b h]
    by_cases hz : dotQ a a * dotQ b b = 0
    · exact ⟨0, by simp [hz], by norm_num, by norm_num⟩
    · have hA : (0:ℚ) < dotQ a a :=
        lt_of_le_of_ne (dotQ_self_nonneg a) (fun hc => hz (by rw [← hc]; ring))
      have hB : (0:ℚ) < dotQ b b := by
        rcases lt_or_eq_of_le (dotQ_self_nonneg b) with hlt | heq
        · exact hlt
        · exact absurd (by rw [← heq]; ring) hz
      have hAr : (0:ℝ) < ((dotQ a a : ℚ) : ℝ) := by exact_mod_cast hA
      have hBr : (0:ℝ) < ((dotQ b b : ℚ) : ℝ) := by exact_mod_cast hB
      have hden : (0:ℝ) < Real.sqrt ((dotQ a a : ℚ) : ℝ) * Real.sqrt ((dotQ b b : ℚ) : ℝ) :=
        mul_pos (Real.sqrt_pos.mpr hAr) (Real.sqrt_pos.mpr hBr)
      have hcs : (((dotQ a b : ℚ) : ℝ)) ^ 2 ≤ ((dotQ a a : ℚ) : ℝ) * ((dotQ b b : ℚ) : ℝ) := by
        exact_mod_cast dotQ_sq_le a b
      have habs : |((dotQ a b : ℚ) : ℝ)| ≤
          Real.sqrt ((dotQ a a : ℚ) : ℝ) * Real.sqrt ((dotQ b b : ℚ) : ℝ) := by
        calc |((dotQ a b : ℚ) : ℝ)| = Real.sqrt (((dotQ a b : ℚ) : ℝ) ^ 2) :=
              (Real.sqrt_sq_eq_abs _).symm
          _ ≤ Real.sqrt (((dotQ a a : ℚ) : ℝ) * ((dotQ b b : ℚ) : ℝ)) := Real.sqrt_le_sqrt hcs
          _ = _ := Real.sqrt_mul hAr.le _
      have hq : |((dotQ a b : ℚ) : ℝ) /
          (Real.sqrt ((dotQ a a : ℚ) : ℝ) * Real.sqrt ((dotQ b b : ℚ) : ℝ))| ≤ 1 := by
        rw [abs_div, abs_of_pos hden]
        exact (div_le_one hden).mpr habs
      obtain ⟨h1, h2⟩ := abs_le.mp hq
      exact ⟨_, by simp [hz], h1, h2⟩
  · intro v hv
    have hS : dotQ v v ≠ 0 := by
      intro h0
      obtain ⟨q, hq, hqne⟩ := hv
      exact hqne ((dotQ_self_eq_zero v).mp h0 q hq)
    have hSnn : (0:ℚ) ≤ dotQ v v := dotQ_self_nonneg v
    rw [cosineSimilarity_finVec v v rfl, if_neg (mul_ne_zero hS hS)]
    congr 1
    rw [Real.mul_self_sqrt (by exact_mod_cast hSnn)]
    exact div_self (by exact_mod_cast hS)
  · intro v hv
    have hS : dotQ v v ≠ 0 := by
      intro h0
      obtain ⟨q, hq, hqne⟩ := hv
      exact hqne ((dotQ_self_eq_zero v).mp h0 q hq)
    have hSnn : (0:ℚ) ≤ dotQ v v := dotQ_self_nonneg v
    rw [cosineSimilarity_finVec v (v.map (fun q => -q)) (by simp),
      dotQ_map_neg_right, dotQ_map_neg_both]
    rw [if_neg (by exact mul_ne_zero hS hS)]
    congr 1
    rw [Real.mul_self_sqrt (by exact_mod_cast hSnn)]
    push_cast
    rw [neg_div]
    rw [div_self (by exact_mod_cast hS)]

/-- Witness for claim C7 at the concrete vector [1, 2]. -/
theorem cosineSimilarity_range_witness :
    (∃ r : ℝ, cosineSimilarity (finVec [1, 2]) (finVec [3, 4]) = Except.ok r ∧
      -1 ≤ r ∧ r ≤ 1) ∧
    cosineSimilarity (finVec [1, 2]) (finVec [1, 2]) = Except.ok 1 ∧
    cosineSimilarity (finVec [1, 2]) (finVec (([1, 2] : List ℚ).map (fun q => -q))) =
      Except.ok (-1) :=
  ⟨cosineSimilarity_range.1 [1, 2] [3, 4] (by decide),
   cosineSimilarity_range.2.1 [1, 2] ⟨1, by decide, by decide⟩,
   cosineSimilarity_range.2.2 [1, 2] ⟨1, by decide, by decide⟩⟩

/-- Claim C8: when the vector store returns no neighbors (as the volatile
backend always does), `findSimilarIssues` falls back to a linear scan over
the fetched siblings: it skips the item's own number, keeps the siblings
whose similarity reaches the duplicate threshold, stores every computed
embedding under `issue-<number>`, and returns the survivors sorted by
descending similarity and truncated to at most 10. -/
theorem findSimilarIssues_fallback_scan (issues : List IssueRecord)
    (sim : IssueRecord → ℚ) (threshold : ℚ) (excludeNumber : ℕ) :
    (∀ emb t l, memoryFindSimilar emb t l = ([] : List SimilarItem)) ∧
    (findSimilarIssues [] issues sim threshold excludeNumber).1 =
      ((fallbackSurvivors issues sim threshold excludeNumber).mergeSort
        bySimilarityDesc).take 10 ∧
    (findSimilarIssues [] issues sim threshold excludeNumber).2 =
      (issues.filter (fun i => decide (i.number ≠ excludeNumber))).map
        (fun i => "issue-" ++ toString i.number) ∧
    (findSimilarIssues [] issues sim threshold excludeNumber).1.length ≤ 10 ∧
    (findSimilarIssues [] issues sim threshold excludeNumber).1.Pairwise
      (fun a b => b.similarity ≤ a.similarity) := by
  have hunfold : findSimilarIssues [] issues sim threshold excludeNumber =
      (((fallbackSurvivors issues sim threshold excludeNumber).mergeSort
        bySimilarityDesc).take 10,
       (issues.filter (fun i => decide (i.number ≠ excludeNumber))).map
         (fun i => "issue-" ++ toString i.number)) := by
    rw [findSimilarIssues, if_neg (by simp), issueScanLoop_eq]
  refine ⟨fun emb t l => rfl, by rw [hunfold], by rw [hunfold], ?_, ?_⟩
  · rw [hunfold]
    exact List.length_take_le 10 _
  · rw [hunfold]
    have hsorted := List.sorted_mergeSort bySimilarityDesc_trans bySimilarityDesc_total
      (fallbackSurvivors issues sim threshold excludeNumber)
    have htake := List.Pairwise.sublist (List.take_sublist 10 _) hsorted
    exact htake.imp (fun hb => by simpa [bySimilarityDesc] using hb)

/-- Claim C9: any error of the embedding call or the judgment call during one
item's duplicate detection is caught at the item boundary: the detection
returns normally with no comment posted, and sibling items in a batch are
processed independently of one item's outcome. -/
theorem detectIssueDuplicate_contains_failures :
    (∀ (threshold : ℚ) (env : TriageEnv) (issue : IssueRecord) (msg : String),
      env.embedResult = Except.error msg →
      (detectIssueDuplicateRun threshold env issue).comments = []) ∧
    (∀ (threshold : ℚ) (env : TriageEnv) (issue : IssueRecord) (msg : String),
      env.judgeResult = Except.error msg →
      (detectIssueDuplicateRun threshold env issue).comments = []) ∧
    (∀ (threshold : ℚ) (pre : List (TriageEnv × IssueRecord)) (env : TriageEnv)
      (issue : IssueRecord) (post : List (TriageEnv × IssueRecord)),
      processDetections threshold (pre ++ (env, issue) :: post) =
        processDetections threshold pre ++
          detectIssueDuplicateRun threshold env issue ::
            processDetections threshold post) := by
  refine ⟨?_, ?_, ?_⟩
  · intro threshold env issue msg h
    simp [detectIssueDuplicateRun, h]
  · intro threshold env issue msg h
    rcases henv : env.embedResult with e | emb
    · simp [detectIssueDuplicateRun, henv]
    · simp only [detectIssueDuplicateRun, henv]
      split
      · rfl
      · rw [h]
  · intro threshold pre env issue post
    simp [processDetections]

/-- Witness for claim C9: a concrete failing embedding call and a concrete
failing judgment call, each leaving no comment. -/
theorem detectIssueDuplicate_contains_failures_witness :
    envEmbedFail.embedResult = Except.error "embedding call failed" ∧
    (detectIssueDuplicateRun (17 / 20) envEmbedFail sampleIssue).comments = [] ∧
    envJudgeFail.judgeResult = Except.error "judgment call failed" ∧
    (detectIssueDuplicateRun (17 / 20) envJudgeFail sampleIssue).comments = [] :=
  ⟨rfl,
   detectIssueDuplicate_contains_failures.1 (17 / 20) envEmbedFail sampleIssue
     "embedding call failed" rfl,
   rfl,
   detectIssueDuplicate_contains_failures.2.1 (17 / 20) envJudgeFail sampleIssue
     "judgment call failed" rfl⟩

/-- Claim C1 (as the code behaves): `formatDuplicateComment` renders the raw
judge-supplied similarity multiplied by 100, with no normalization, so a
judge-returned similarity of 86.6 renders as 8660.0% rather than the 86.6%
the spec requires. -/
theorem formatDuplicateComment_renders_raw_percent :
    renderedPercent percentScaleItem.similarity = 8660 ∧
    ¬ renderedPercent percentScaleItem.similarity ≤ 100 ∧
    similarItemLine percentScaleItem =
      "- [#100](https://github.com/example-org/example-repo/issues/100) - " ++
        "OAuth callback timeout (8660.0% similar)" ∧
    renderedPercent (normalizeSimilaritySpec percentScaleItem.similarity) = 433 / 5 := by
  have hsim : percentScaleItem.similarity = 433 / 5 := rfl
  refine ⟨?_, ?_, ?_, ?_⟩
  · rw [hsim]
    norm_num [renderedPercent, jsRound, Int.floor_eq_iff]
  · rw [hsim]
    norm_num [renderedPercent, jsRound, Int.floor_eq_iff]
  · have harg : percentScaleItem.similarity * 100 = 8660 := by rw [hsim]; norm_num
    have hjr : jsRound ((8660 : ℚ) * 10) = 86600 := by
      norm_num [jsRound, Int.floor_eq_iff]
    have hfix : toFixed1 (percentScaleItem.similarity * 100) = "8660.0" := by
      rw [harg]
      simp only [toFixed1, hjr]
      rfl
    rw [similarItemLine, hfix]
    rfl
  · rw [hsim]
    norm_num [renderedPercent, normalizeSimilaritySpec, clamp, jsRound, min_def, max_def,
      Int.floor_eq_iff]

/-- Claim C2 (as the code behaves): `detectIssueDuplicate` makes a single
binary decision — it posts a duplicate comment on the source issue exactly
when the verdict flags a duplicate with a nonempty similar-items list — so a
verdict whose only candidate has normalized similarity 0.2, far below both
the duplicate threshold 0.85 and the related floor 0.75, still produces a
posted duplicate comment instead of the distinct/no-comment classification
the spec requires. -/
theorem detectIssueDuplicate_binary_below_threshold :
    detectIssueDuplicateComments 101 lowSimVerdict =
      [(101, formatDuplicateComment lowSimVerdict BacklogItemType.issue)] ∧
    lowSimVerdict.similarItems = [lowSimItem] ∧
    normalizeSimilaritySpec lowSimItem.similarity < 17 / 20 ∧
    normalizeSimilaritySpec lowSimItem.similarity < 3 / 4 := by
  refine ⟨rfl, rfl, ?_, ?_⟩
  · norm_num [normalizeSimilaritySpec, clamp, lowSimItem, min_def, max_def]
  · norm_num [normalizeSimilaritySpec, clamp, lowSimItem, min_def, max_def]

/-- Claim C4 (as the code behaves): a closed candidate PR returned by the
vector store is passed straight to the judgment call by `detectPrDuplicate`;
no open/closed/merged check occurs before the call. -/
theorem detectPrDuplicate_passes_closed_candidate :
    detectPrDuplicateCandidates closedPrStore [] (fun _ => 0) (17 / 20)
      closedPrLookup 7 =
      [⟨6, "Closed smoke-test PR", "Closed test PR body",
        "https://github.com/example-org/example-repo/pull/6", 91 / 100⟩] ∧
    (closedPrLookup 6).state = "closed" ∧
    (detectPrDuplicateCandidates closedPrStore [] (fun _ => 0) (17 / 20)
      closedPrLookup 7).length = 1 :=
  ⟨rfl, rfl, rfl⟩

/-- Claim C5 (as the code behaves): `suggestIssueLabels` applies the model's
suggested labels as-is, without filtering them against the repository label
set, so a suggested label absent from the repository is still written; the
empty-list no-op half of the claim does hold, both in `suggestIssueLabels`
and in `GitHubService.addLabels`. -/
theorem suggestIssueLabels_applies_unfiltered :
    suggestIssueLabelsWrites 42 ["bug", "enhancement"]
      { labels := ["bug", "not-in-repo"], reasoning := "Issue is bug-like" } =
      [(42, ["bug", "not-in-repo"])] ∧
    "not-in-repo" ∉ ["bug", "enhancement"] ∧
    (∀ (n : ℕ) (repoLabels : List String) (why : String),
      suggestIssueLabelsWrites n repoLabels { labels := [], reasoning := why } = []) ∧
    addLabelsPerformsWrite [] = false :=
  ⟨rfl, by decide, fun n repoLabels why => rfl, rfl⟩

end Prism
